import Mathlib

/-
Verification of the coding-agent repository: a minimal agentic loop around a
hosted LLM API.  The repository has a single-file variant (agent.ts, here
`SingleFile`), a modularized variant (src/agent.ts + src/tools.ts +
src/utils.ts, here `Tools` / the agent-loop definitions), and a colorized
variant with a grep_search tool (here `Grep`).

Shallow embedding conventions:
- JavaScript exceptions are modelled with `Except String`; the payload is the
  message rendered by the catch sites (`e.message` in tools.ts / agent.ts).
  A tool branch that catches its exceptions returns `.ok ("Error: " ++ msg)`;
  an exception that escapes (a rejected promise awaited by the caller) is
  `.error msg`.
- The Node filesystem is modelled as association lists of files and
  directories; every stat-able path is either a file or a directory.
- The external shell is an oracle `String → SpawnOutcome` giving, per command,
  either the close event (exit code, stdout, stderr) or a spawn failure
  ("error" event).  The Node `child_process.spawn` call validates its argument types
  synchronously: spawning with an `undefined` element in `args` throws
  `ERR_INVALID_ARG_TYPE` before any process starts; inside the
  `new Promise` executor of the bash branch this rejects the returned promise.
- The model endpoint and the tokenizer are oracles inside `Env`.
- String helpers are re-implemented over `List Char` so that every definition
  evaluates inside the kernel.
-/

namespace CodingAgent

/-- Substring occurrence test on character lists (structural, kernel-reducible). -/
def containsSub (pat : List Char) : List Char → Bool
  | [] => pat.isEmpty
  | c :: tail => pat.isPrefixOf (c :: tail) || containsSub pat tail

/-- Does `s` contain `pat` as a substring? -/
def hasSubstr (s pat : String) : Bool := containsSub pat.data s.data

/-- Does `s` start with `pat`? (kernel-reducible replacement for String.startsWith). -/
def hasPrefix (s pat : String) : Bool := pat.data.isPrefixOf s.data

/-- Split a character list at every occurrence of `sep` (JavaScript
`String.prototype.split` with a single-character separator). -/
def splitChar (sep : Char) : List Char → List (List Char)
  | [] => [[]]
  | c :: cs =>
    let r := splitChar sep cs
    if c = sep then [] :: r
    else
      match r with
      | [] => [[c]]
      | h :: t => (c :: h) :: t

/-- JavaScript `content.split('\n')`. -/
def jsSplitLines (s : String) : List String := (splitChar '\n' s.data).map List.asString

/-- JavaScript `Array.prototype.join(sep)`. -/
def joinWith (sep : String) : List String → String
  | [] => ""
  | [s] => s
  | s :: rest => s ++ sep ++ joinWith sep rest

/-- Node `path.isAbsolute` (posix): the path starts with a slash. -/
def isAbsolute (p : String) : Bool :=
  match p.data with
  | [] => false
  | c :: _ => c = '/'

/-- Node `path.join(cwd, p)` for an already-normalized relative path `p`. -/
def joinPath (a b : String) : String := a ++ "/" ++ b

/-- Message of the TypeError thrown by Node `path.isAbsolute` when the tool
argument `path` is absent (`undefined`). -/
def pathTypeErrMsg : String := "The \x22path\x22 argument must be of type string. Received undefined"

/-- The `resolvePath` helper shared by every executeTool variant:
`path.isAbsolute(p) ? p : path.join(cwd, p)`. -/
def resolvePath (cwd p : String) : String := if isAbsolute p then p else joinPath cwd p

/-- One entry of `fs.readdirSync(..., { withFileTypes: true })`. -/
structure DirEntry where
  name : String
  isDir : Bool
deriving DecidableEq, Repr

/-- Model of the filesystem seen by the tools: contents of files by resolved
path, and directory listings by resolved path.  A lookup takes the first
matching entry, so writing prepends. -/
structure FS where
  files : List (String × String)
  dirs : List (String × List DirEntry)
deriving DecidableEq, Repr

def FS.readFile? (fs : FS) (p : String) : Option String :=
  (fs.files.find? (fun e => e.1 == p)).map (·.2)

def FS.readdir? (fs : FS) (p : String) : Option (List DirEntry) :=
  (fs.dirs.find? (fun e => e.1 == p)).map (·.2)

def FS.isFile (fs : FS) (p : String) : Bool := fs.files.any (fun e => e.1 == p)

def FS.isDirPath (fs : FS) (p : String) : Bool := fs.dirs.any (fun e => e.1 == p)

/-- Overwrite (or create) the file at resolved path `p` with content `c`. -/
def FS.writeFile (fs : FS) (p c : String) : FS :=
  { fs with files := (p, c) :: fs.files }

/-- Node `fs.readFileSync(p, "utf-8")`: the content, or a thrown ENOENT error. -/
def readFileSync (fs : FS) (p : String) : Except String String :=
  match fs.readFile? p with
  | some c => .ok c
  | none => .error ("ENOENT: no such file or directory, open " ++ p)

/-- Message of the TypeError thrown by Node `fs.writeFileSync` when the data
argument is `undefined` (the single-file variant passes `input.content`
through without checking it). -/
def writeDataErrMsg : String :=
  "The \x22data\x22 argument must be of type string or an instance of Buffer, TypedArray, or DataView. Received undefined"

/-- Node `fs.writeFileSync(p, data)`. -/
def writeFileSync (fs : FS) (p : String) (data : Option String) : Except String FS :=
  match data with
  | none => .error writeDataErrMsg
  | some c => .ok (fs.writeFile p c)

/-- Node `fs.readdirSync(p, { withFileTypes: true })`. -/
def readdirSync (fs : FS) (p : String) : Except String (List DirEntry) :=
  match fs.readdir? p with
  | some es => .ok es
  | none => .error ("ENOENT: no such file or directory, scandir " ++ p)

/-- Outcome of `spawn("bash", ["-c", command], { cwd })` for a present command
string: either the `close` event with exit code and collected output streams,
or the `error` event (process could not be spawned). -/
inductive SpawnOutcome where
  | closed (code : Int) (stdout stderr : String)
  | spawnFailed (msg : String)

/-- Message of the TypeError thrown synchronously by Node `spawn` when an
element of `args` is `undefined` (ERR_INVALID_ARG_TYPE); thrown inside the
`new Promise` executor, it rejects the promise returned by the bash branch. -/
def spawnArgErrMsg : String := "The \x22args[1]\x22 argument must be of type string. Received undefined"

/-- The structured argument object the model supplies with a tool invocation.
Absent fields are `none` (JavaScript `undefined`). -/
structure ToolInput where
  path : Option String := none
  content : Option String := none
  command : Option String := none
  pattern : Option String := none
  recursive : Option Bool := none
  case_sensitive : Option Bool := none
  file_extensions : Option (List String) := none
deriving DecidableEq, Repr

/-- The required-field error string of the modularized write_file branch. -/
def contentRequiredMsg : String := "Error: content parameter is required but was not provided"

namespace Tools

/-- The executeTool of the modularized variant (src/tools.ts, lines 58-105).
The switch on the tool name is an if-chain; each filesystem branch catches its
exceptions and renders them as `Error: <message>` text; the bash branch wraps a
spawned process in a promise that resolves on `close` or `error`, but a spawn
invoked with an `undefined` command rejects that promise (`.error`). -/
def executeTool (cwd : String) (shell : String → SpawnOutcome) (name : String)
    (input : ToolInput) (fs : FS) : Except String String × FS :=
  if name = "read_file" then
    match input.path with
    | none => (.ok ("Error: " ++ pathTypeErrMsg), fs)
    | some q =>
      match readFileSync fs (resolvePath cwd q) with
      | .ok content => (.ok content, fs)
      | .error e => (.ok ("Error: " ++ e), fs)
  else if name = "write_file" then
    match input.content with
    | none => (.ok contentRequiredMsg, fs)
    | some c =>
      match input.path with
      | none => (.ok ("Error: " ++ pathTypeErrMsg), fs)
      | some q => (.ok ("Written to " ++ q), fs.writeFile (resolvePath cwd q) c)
  else if name = "list_dir" then
    match input.path with
    | none => (.ok ("Error: " ++ pathTypeErrMsg), fs)
    | some q =>
      match readdirSync fs (resolvePath cwd q) with
      | .ok entries =>
        (.ok (joinWith "\n" (entries.map (fun e => if e.isDir then e.name ++ "/" else e.name))), fs)
      | .error e => (.ok ("Error: " ++ e), fs)
  else if name = "bash" then
    match input.command with
    | none => (.error spawnArgErrMsg, fs)
    | some cmd =>
      match shell cmd with
      | .closed code out err =>
        (.ok ("Exit code: " ++ toString code ++ "\n" ++ out ++
          (if err = "" then "" else "\nStderr: " ++ err)), fs)
      | .spawnFailed m => (.ok ("Error: " ++ m), fs)
  else (.ok ("Unknown tool: " ++ name), fs)

end Tools

namespace SingleFile

/-- The executeTool of the single-file variant (agent.ts, lines 98-142).  Identical
to the modularized variant except the write_file branch: there is no explicit
content-required check, so `fs.writeFileSync(resolvePath(input.path),
input.content)` with an absent content throws the fs-level TypeError, which the
surrounding try/catch renders as `Error: <message>` text. -/
def executeTool (cwd : String) (shell : String → SpawnOutcome) (name : String)
    (input : ToolInput) (fs : FS) : Except String String × FS :=
  if name = "read_file" then
    match input.path with
    | none => (.ok ("Error: " ++ pathTypeErrMsg), fs)
    | some q =>
      match readFileSync fs (resolvePath cwd q) with
      | .ok content => (.ok content, fs)
      | .error e => (.ok ("Error: " ++ e), fs)
  else if name = "write_file" then
    match input.path with
    | none => (.ok ("Error: " ++ pathTypeErrMsg), fs)
    | some q =>
      match writeFileSync fs (resolvePath cwd q) input.content with
      | .ok fs' => (.ok ("Written to " ++ q), fs')
      | .error e => (.ok ("Error: " ++ e), fs)
  else if name = "list_dir" then
    match input.path with
    | none => (.ok ("Error: " ++ pathTypeErrMsg), fs)
    | some q =>
      match readdirSync fs (resolvePath cwd q) with
      | .ok entries =>
        (.ok (joinWith "\n" (entries.map (fun e => if e.isDir then e.name ++ "/" else e.name))), fs)
      | .error e => (.ok ("Error: " ++ e), fs)
  else if name = "bash" then
    match input.command with
    | none => (.error spawnArgErrMsg, fs)
    | some cmd =>
      match shell cmd with
      | .closed code out err =>
        (.ok ("Exit code: " ++ toString code ++ "\n" ++ out ++
          (if err = "" then "" else "\nStderr: " ++ err)), fs)
      | .spawnFailed m => (.ok ("Error: " ++ m), fs)
  else (.ok ("Unknown tool: " ++ name), fs)

end SingleFile

/-- The set of tool names compiled into the single-file and modularized
variants (the shared tool set of both registries). -/
def knownTools : List String := ["read_file", "write_file", "list_dir", "bash"]

/-- Does the argument object lack a field the named tool requires?  (Per the
registry: read_file/list_dir require path, write_file requires path and
content, bash requires command.) -/
def missingRequired (name : String) (input : ToolInput) : Bool :=
  if name = "read_file" then input.path.isNone
  else if name = "write_file" then input.path.isNone || input.content.isNone
  else if name = "list_dir" then input.path.isNone
  else if name = "bash" then input.command.isNone
  else false

namespace colorize

/-- Modelled from the spec: the `./colors` module imported by the grep-enabled
variant is not among the provided sources; the spec treats terminal coloring as
cosmetic output with no control-flow impact, so its `colorize` helpers are
modelled as ANSI-escape wrappers that preserve the wrapped text. -/
def wrap (code s : String) : String := code ++ s ++ "\x1b[0m"

def file (s : String) : String := wrap "\x1b[36m" s

def info (s : String) : String := wrap "\x1b[34m" s

def highlight (s : String) : String := wrap "\x1b[43m" s

def warning (s : String) : String := wrap "\x1b[33m" s

def success (s : String) : String := wrap "\x1b[32m" s

def error (s : String) : String := wrap "\x1b[31m" s

end colorize

/-- A compiled JavaScript regular expression (`new RegExp(pattern, flags)`), as
used by the grep branch: `test line` models `line.match(regex) !== null`, and
`repl line` models `line.replace(regex, m => colorize.highlight(m))`.  The
regex engine itself is external (JavaScript stdlib), so grep definitions take
the compiler `Option String → Bool → Except String JsRegex` as an oracle: it
returns the compiled object, or the rendered SyntaxError for an invalid
pattern (an absent pattern compiles, as `new RegExp(undefined)` does). -/
structure JsRegex where
  test : String → Bool
  repl : String → String

/-- JavaScript template interpolation of a possibly-undefined string. -/
def jsOptStr (o : Option String) : String :=
  match o with
  | none => "undefined"
  | some s => s

/-- Node `path.extname`: the final extension of the base name of the path. -/
def extname (p : String) : String :=
  match (splitChar '.' (List.asString ((splitChar '/' p.data).getLastD [])).data).reverse with
  | [] => ""
  | [_] => ""
  | ext :: _ => "." ++ List.asString ext

/-- Node `path.relative(cwd, p)` for a path lying under `cwd`. -/
def relativeTo (cwd p : String) : String :=
  if (cwd ++ "/").data.isPrefixOf p.data then List.asString (p.data.drop (cwd.data.length + 1)) else p

namespace Grep

/-- The `searchInFile` closure of the grep_search branch (lines 174-200 of the
grep-enabled variant): stat the path and skip it unless it is a regular file,
apply the optional extension allow-list, read the content, split it into
lines, and for each line matched by the regex emit
`colorize.file(relativePath) ++ ":" ++ colorize.info(lineNumber) ++ ":" ++
highlightedLine` with line numbers starting at 1; any filesystem exception
skips the file silently. -/
def searchInFile (rx : JsRegex) (exts : List String) (cwd : String) (fs : FS)
    (filePath : String) : List String :=
  if fs.isFile filePath then
    if exts ≠ [] && !(exts.contains (extname filePath)) then []
    else
      match fs.readFile? filePath with
      | none => []
      | some content =>
        ((jsSplitLines content).enum).filterMap fun il =>
          if rx.test il.2 then
            some (colorize.file (relativeTo cwd filePath) ++ ":" ++
              colorize.info (toString (il.1 + 1)) ++ ":" ++ rx.repl il.2)
          else none
  else []

/-- The `searchDirectory` closure (lines 202-218): list the directory (a
failure skips it), search file entries, and recurse into subdirectories when
`recursive` holds, skipping hidden directories and node_modules.  The `fuel`
argument bounds the recursion depth of the embedding; the source recursion is
bounded by the finite directory tree. -/
def searchDirectory (rx : JsRegex) (exts : List String) (cwd : String) (fs : FS)
    (recursive : Bool) : Nat → String → List String
  | 0, _ => []
  | fuel + 1, dirPath =>
    match fs.readdir? dirPath with
    | none => []
    | some entries =>
      entries.flatMap fun e =>
        let fullPath := joinPath dirPath e.name
        if !e.isDir then searchInFile rx exts cwd fs fullPath
        else if recursive && !(e.name.data.head? == some '.') && e.name ≠ "node_modules" then
          searchDirectory rx exts cwd fs recursive fuel fullPath
        else []

/-- The grep_search case of the executeTool of the grep-enabled variant (lines
157-239): resolve the path, default `recursive` to true, `case_sensitive` to
false and the extension filter to empty, compile the pattern (an invalid
pattern is reported as `Invalid regex pattern: ...`), search the target (a
file directly, a directory via the walk), and render either the explicit
no-matches message or a match-count summary followed by the matching lines
joined with newlines.  A filesystem exception at the stat of the target is
caught by the outer try and rendered as `Error during search: ...`. -/
def grepSearch (compile : Option String → Bool → Except String JsRegex)
    (cwd : String) (fs : FS) (input : ToolInput) (fuel : Nat) : String :=
  match input.path with
  | none => colorize.error ("Error during search: TypeError: " ++ pathTypeErrMsg)
  | some q =>
    let targetPath := resolvePath cwd q
    let recursive := input.recursive.getD true
    let caseSensitive := input.case_sensitive.getD false
    let exts := input.file_extensions.getD []
    match compile input.pattern caseSensitive with
    | .error e => colorize.error ("Invalid regex pattern: " ++ e)
    | .ok rx =>
      if fs.isFile targetPath || fs.isDirPath targetPath then
        let results :=
          if fs.isFile targetPath then searchInFile rx exts cwd fs targetPath
          else searchDirectory rx exts cwd fs recursive fuel targetPath
        if results.isEmpty then
          colorize.warning ("No matches found for pattern: " ++ jsOptStr input.pattern)
        else
          colorize.success ("Found " ++ toString results.length ++ " matches for pattern: " ++
            jsOptStr input.pattern) ++ "\n\n" ++ joinWith "\n" results
      else
        colorize.error ("Error during search: Error: ENOENT: no such file or directory, stat " ++
          targetPath)

end Grep

inductive Role where
  | user
  | assistant
deriving DecidableEq, Repr

/-- One content block of a model response: free text, or a tool-invocation
request carrying a unique identifier, a tool name and an argument object. -/
inductive ContentBlock where
  | text (s : String)
  | toolUse (id name : String) (input : ToolInput)
deriving DecidableEq, Repr

/-- One tool_result block sent back to the model: the identifier of the
originating request and the result text. -/
structure ToolResultBlock where
  tool_use_id : String
  content : String
deriving DecidableEq, Repr

/-- The content of one transcript turn: a plain string (the initial user
prompt), the content blocks of the assistant, or a list of tool results. -/
inductive MsgContent where
  | str (s : String)
  | blocks (bs : List ContentBlock)
  | toolResults (rs : List ToolResultBlock)
deriving DecidableEq, Repr

structure MessageParam where
  role : Role
  content : MsgContent
deriving DecidableEq, Repr

/-- A model response (only its content blocks matter to the loop). -/
structure Response where
  content : List ContentBlock
deriving DecidableEq, Repr

structure TokenUsage where
  inputTokens : Nat
  outputTokens : Nat
  totalTokens : Nat
deriving DecidableEq, Repr

structure SessionStats where
  totalTokens : Nat
  requestCount : Nat
  maxContextTokens : Nat
  currentConversationTokens : Nat
deriving DecidableEq, Repr

/-- The external collaborators of the loop: the hosted model endpoint (an oracle
from the transcript to one response), the tokenizer `countTokens`, and the
JSON serializations fed to the tokenizer (`JSON.stringify(tools)` and
`JSON.stringify(block.input)`). -/
structure Env where
  model : List MessageParam → Response
  countTok : String → Nat
  toolsJson : String
  stringifyInput : ToolInput → String

/-- Text contributed by one transcript message to the tokenizer input
(utils.ts calculateTokenUsage: string content verbatim, text blocks, and
string-valued tool_result contents). -/
def msgText (m : MessageParam) : String :=
  match m.content with
  | .str s => s
  | .blocks bs =>
    joinWith "" (bs.map fun b =>
      match b with
      | .text t => t
      | .toolUse _ _ _ => "")
  | .toolResults rs => joinWith "" (rs.map (·.content))

/-- utils.ts calculateTokenUsage: count tokens of the system prompt, the
transcript and the serialized tool registry as input, and of the text and
serialized tool_use inputs of the response as output. -/
def calculateTokenUsage (env : Env) (messages : List MessageParam) (systemPrompt : String)
    (response : Response) : TokenUsage :=
  let inputText := systemPrompt ++ joinWith "" (messages.map msgText) ++ env.toolsJson
  let outputText := joinWith "" (response.content.map fun b =>
    match b with
    | .text t => t
    | .toolUse _ _ i => env.stringifyInput i)
  let inputTokens := env.countTok inputText
  let outputTokens := env.countTok outputText
  { inputTokens := inputTokens, outputTokens := outputTokens,
    totalTokens := inputTokens + outputTokens }

/-- utils.ts updateContextUsage: add the usage to the session totals and bump
the request counter (the console rendering has no state effect). -/
def updateContextUsage (usage : TokenUsage) (stats : SessionStats) : SessionStats :=
  { stats with
    totalTokens := stats.totalTokens + usage.totalTokens,
    currentConversationTokens := stats.currentConversationTokens + usage.inputTokens,
    requestCount := stats.requestCount + 1 }

/-- The block-processing loop of runAgent (agent.ts, lines 65-82): walk the
content blocks of the response in order, execute each tool_use block via
executeTool, and collect one tool_result per request, identifier and order
preserved; record whether any tool_use block was seen.  A rejected tool
execution propagates (`.error`) past the loop, as the awaited exception does. -/
def processBlocks (exec : String → ToolInput → FS → Except String String × FS) :
    List ContentBlock → FS → Except String (List ToolResultBlock × FS × Bool)
  | [], fs => .ok ([], fs, false)
  | .text _ :: rest, fs => processBlocks exec rest fs
  | .toolUse id name input :: rest, fs =>
    match exec name input fs with
    | (.error e, _) => .error e
    | (.ok r, fs') =>
      match processBlocks exec rest fs' with
      | .error e => .error e
      | .ok (rs, fs'', _) => .ok (⟨id, r⟩ :: rs, fs'', true)

/-- The tool-invocation requests of a response, in emission order. -/
def toolRequests (blocks : List ContentBlock) : List (String × String × ToolInput) :=
  blocks.filterMap fun b =>
    match b with
    | .toolUse id name input => some (id, name, input)
    | .text _ => none

/-- Does the response contain at least one tool-invocation request? -/
def hasToolUseB (blocks : List ContentBlock) : Bool :=
  blocks.any fun b =>
    match b with
    | .toolUse _ _ _ => true
    | .text _ => false

/-- Result of running the agent loop: normal termination with the final
transcript, filesystem and session statistics; an uncaught exception
propagating out of the loop; or fuel exhaustion of the embedding (the source
loop is unbounded). -/
inductive LoopOutcome where
  | done (messages : List MessageParam) (fs : FS) (stats : SessionStats)
  | raised (msg : String)
  | fuelOut
deriving DecidableEq, Repr

/-- The fixed system instruction of runAgent, embedding the working directory. -/
def systemPrompt (cwd : String) : String :=
  "You are a coding assistant. Working directory: " ++ cwd ++
    "\nUse tools to help the user. Be concise."

/-- The while-true loop of the modularized runAgent (agent.ts, lines 47-94):
per iteration bump `requestCount` (line 49), call the model, account token
usage via updateContextUsage, process the blocks of the response, append the
assistant turn, and either append the tool results as a user turn and loop, or
terminate.  `fuel` bounds the iterations of the embedding only. -/
def agentLoop (env : Env) (exec : String → ToolInput → FS → Except String String × FS)
    (cwd : String) : Nat → List MessageParam → FS → SessionStats → LoopOutcome
  | 0, _, _, _ => .fuelOut
  | fuel + 1, messages, fs, stats =>
    let stats1 := { stats with requestCount := stats.requestCount + 1 }
    let response := env.model messages
    let usage := calculateTokenUsage env messages (systemPrompt cwd) response
    let stats2 := updateContextUsage usage stats1
    match processBlocks exec response.content fs with
    | .error e => .raised e
    | .ok (toolResults, fs', hasToolUse) =>
      let messages1 := messages ++ [⟨.assistant, .blocks response.content⟩]
      if hasToolUse then
        agentLoop env exec cwd fuel (messages1 ++ [⟨.user, .toolResults toolResults⟩]) fs' stats2
      else .done messages1 fs' stats2

/-- runAgent (agent.ts, line 39): start the transcript with the user turn and
run the loop. -/
def runAgent (env : Env) (exec : String → ToolInput → FS → Except String String × FS)
    (cwd : String) (fuel : Nat) (userMessage : String) (fs : FS) (stats : SessionStats) :
    LoopOutcome :=
  agentLoop env exec cwd fuel [⟨.user, .str userMessage⟩] fs stats

/-- Boolean success test for the promise of the executor.  In the source, `.ok`
means the promise returned by executeTool resolved with text and `.error`
means it rejected (an exception reached the caller). -/
def isOkE (r : Except String String) : Bool :=
  match r with
  | .ok _ => true
  | .error _ => false

/-- Resolved text of the promise of the executor (dummy for a rejection). -/
def okText (r : Except String String) : String :=
  match r with
  | .ok t => t
  | .error e => e

/-- A concrete shell oracle used by witnesses: `exit 0` and `exit 7` close
with the corresponding exit codes and empty output streams; anything else
fails to spawn. -/
def shell0 : String → SpawnOutcome := fun cmd =>
  if cmd = "exit 0" then .closed 0 "" ""
  else if cmd = "exit 7" then .closed 7 "" ""
  else .spawnFailed "spawn bash ENOENT"

/-- A concrete filesystem used by witnesses: an empty working directory. -/
def fs0 : FS := { files := [], dirs := [("/w", [])] }

/-- A concrete filesystem for the grep claim: the working directory /w holds a
directory d with one file a.txt whose third line contains "foobar". -/
def grepFS : FS :=
  { files := [("/w/d/a.txt", "alpha\nbeta\nfoobar")],
    dirs := [("/w/d", [⟨"a.txt", false⟩])] }

/-- Concrete compiled regex for the literal pattern "foo" (the g/gi-flag match
of a literal pattern is substring occurrence; the replace callback wraps each
match with the highlight color). -/
def fooRx : JsRegex :=
  { test := fun l => hasSubstr l "foo",
    repl := fun l => l }

/-- Concrete compiled regex for the literal pattern "zzz". -/
def zzzRx : JsRegex :=
  { test := fun l => hasSubstr l "zzz",
    repl := fun l => l }

/-- A concrete regex-compiler oracle mapping the two patterns used by the grep
witness to their compiled objects. -/
def compile0 : Option String → Bool → Except String JsRegex := fun p _ =>
  if p = some "zzz" then .ok zzzRx else .ok fooRx

/-- Fresh session statistics, as initialized by the interactive shell. -/
def statsZ : SessionStats :=
  { totalTokens := 0, requestCount := 0, maxContextTokens := 200000,
    currentConversationTokens := 0 }

/-- A concrete model oracle whose every response is text-only. -/
def envDone : Env :=
  { model := fun _ => ⟨[.text "done"]⟩,
    countTok := fun s => s.data.length,
    toolsJson := "",
    stringifyInput := fun _ => "" }

/-- Content blocks of a concrete model response carrying two tool-invocation
requests. -/
def blocksC1 : List ContentBlock :=
  [.toolUse "toolu_01" "bash" { command := some "exit 0" },
   .toolUse "toolu_02" "read_file" { path := some "f" }]

/-- A concrete model oracle whose every response carries the two requests of
`blocksC1`. -/
def envTwoTools : Env :=
  { model := fun _ => ⟨blocksC1⟩,
    countTok := fun s => s.data.length,
    toolsJson := "",
    stringifyInput := fun _ => "" }

/-- The tool results the loop derives from `blocksC1` over `fs0`/`shell0`. -/
def rsC1 : List ToolResultBlock :=
  [⟨"toolu_01", "Exit code: 0\n"⟩,
   ⟨"toolu_02", "Error: ENOENT: no such file or directory, open /w/f"⟩]

/-- A concrete model oracle that requests the bash tool without a command
argument. -/
def envBadBash : Env :=
  { model := fun _ => ⟨[.toolUse "toolu_09" "bash" {}]⟩,
    countTok := fun s => s.data.length,
    toolsJson := "",
    stringifyInput := fun _ => "" }

theorem processBlocks_noTool (exec : String → ToolInput → FS → Except String String × FS)
    (blocks : List ContentBlock) (fs : FS) (h : hasToolUseB blocks = false) :
    processBlocks exec blocks fs = .ok ([], fs, false) := by
  induction blocks generalizing fs with
  | nil => rfl
  | cons b rest ih =>
    cases b with
    | text s =>
      have hrest : hasToolUseB rest = false := by
        simpa [hasToolUseB, List.any_cons] using h
      simpa [processBlocks] using ih fs hrest
    | toolUse id name input => simp [hasToolUseB, List.any_cons] at h

theorem hasToolUseB_eq (blocks : List ContentBlock) :
    hasToolUseB blocks = !(toolRequests blocks).isEmpty := by
  induction blocks with
  | nil => rfl
  | cons b rest ih =>
    cases b with
    | text s => simpa [hasToolUseB, toolRequests, List.any_cons] using ih
    | toolUse id name input => simp [hasToolUseB, toolRequests, List.any_cons]

theorem processBlocks_ok_spec (exec : String → ToolInput → FS → Except String String × FS) :
    ∀ (blocks : List ContentBlock) (fs : FS) (rs : List ToolResultBlock) (fs' : FS) (b : Bool),
    processBlocks exec blocks fs = .ok (rs, fs', b) →
    rs.map (·.tool_use_id) = (toolRequests blocks).map (·.1) ∧ b = hasToolUseB blocks
  | [], fs, rs, fs', b, h => by
    simp only [processBlocks] at h
    obtain ⟨h1, _, h3⟩ : rs = [] ∧ fs = fs' ∧ false = b := by
      simpa using h
    subst h1
    subst h3
    simp [toolRequests, hasToolUseB]
  | .text s :: rest, fs, rs, fs', b, h => by
    have hrec := processBlocks_ok_spec exec rest fs rs fs' b (by simpa [processBlocks] using h)
    simpa [toolRequests, hasToolUseB, List.any_cons] using hrec
  | .toolUse id name input :: rest, fs, rs, fs', b, h => by
    simp only [processBlocks] at h
    split at h
    · exact absurd h (by simp)
    · rename_i r fsx hx
      split at h
      · exact absurd h (by simp)
      · rename_i rs0 fsy b0 hy
        obtain ⟨h1, _, h3⟩ : ToolResultBlock.mk id r :: rs0 = rs ∧ fsy = fs' ∧ true = b := by
          simpa using h
        subst h1
        subst h3
        have hrec := processBlocks_ok_spec exec rest fsx rs0 fsy b0 hy
        simp [toolRequests, hasToolUseB, List.any_cons, hrec.1]

/-- Claim C1 (amended): for every model response holding at least one
tool-invocation request, provided the execution of every request resolves rather
than rejecting (the processBlocks hypothesis; every execution resolves except
bash invoked without its command argument), one loop iteration appends the
assistant turn followed by exactly one user turn holding one tool-result block
per request — identifiers equal to the request identifiers, in the same order
— before the next model call (the recursive agentLoop call on the extended
transcript), and the response indeed held at least one request. -/
theorem turn_loop_tool_results_order (env : Env)
    (exec : String → ToolInput → FS → Except String String × FS) (cwd : String) (fuel : Nat)
    (msgs : List MessageParam) (fs fs' : FS) (stats : SessionStats) (rs : List ToolResultBlock)
    (h : processBlocks exec (env.model msgs).content fs = .ok (rs, fs', true)) :
    agentLoop env exec cwd (fuel + 1) msgs fs stats =
      agentLoop env exec cwd fuel
        (msgs ++ [⟨.assistant, .blocks (env.model msgs).content⟩, ⟨.user, .toolResults rs⟩]) fs'
        (updateContextUsage (calculateTokenUsage env msgs (systemPrompt cwd) (env.model msgs))
          { stats with requestCount := stats.requestCount + 1 })
    ∧ rs.map (·.tool_use_id) = (toolRequests (env.model msgs).content).map (·.1)
    ∧ rs.length = (toolRequests (env.model msgs).content).length
    ∧ toolRequests (env.model msgs).content ≠ [] := by
  obtain ⟨hids, hb⟩ := processBlocks_ok_spec exec _ fs rs fs' true h
  refine ⟨?_, hids, ?_, ?_⟩
  · rw [agentLoop]
    rw [h]
    simp
  · simpa using congrArg List.length hids
  · intro hempty
    rw [hasToolUseB_eq, hempty] at hb
    simp at hb

/-- Witness for C1: a concrete response with two tool requests yields two
tool-result blocks whose identifiers match the requests in order. -/
theorem turn_loop_tool_results_order_witness :
    rsC1.map (·.tool_use_id) = (toolRequests blocksC1).map (·.1) ∧
    rsC1.length = (toolRequests blocksC1).length := by
  have h := turn_loop_tool_results_order envTwoTools (Tools.executeTool "/w" shell0) "/w" 1
    [⟨.user, .str "hi"⟩] fs0 fs0 statsZ rsC1 (by rfl)
  exact ⟨h.2.1, h.2.2.1⟩

/-- Counterexample to C1 as stated: a model response carrying one
tool-invocation request (bash with its command argument absent) makes the loop
raise the spawn TypeError instead of appending a matching tool-result block. -/
theorem turn_loop_tool_results_order_counterexample :
    (toolRequests (envBadBash.model [⟨.user, .str "hi"⟩]).content).length = 1 ∧
    agentLoop envBadBash (Tools.executeTool "/w" shell0) "/w" 2 [⟨.user, .str "hi"⟩] fs0 statsZ =
      .raised spawnArgErrMsg :=
  ⟨by decide, by decide⟩

/-- Claim C2: when the first model response contains no tool-invocation
request, the loop terminates after exactly one iteration (one unit of fuel
consumed, independent of the remaining fuel), and the final transcript is
exactly the initial user turn followed by one assistant turn holding that
response; the filesystem is untouched. -/
theorem turn_loop_no_tool_terminates (env : Env)
    (exec : String → ToolInput → FS → Except String String × FS) (cwd : String) (fs : FS)
    (stats : SessionStats) (msg : String) (fuel : Nat)
    (h : hasToolUseB (env.model [⟨.user, .str msg⟩]).content = false) :
    runAgent env exec cwd (fuel + 1) msg fs stats =
      .done [⟨.user, .str msg⟩, ⟨.assistant, .blocks (env.model [⟨.user, .str msg⟩]).content⟩] fs
        (updateContextUsage
          (calculateTokenUsage env [⟨.user, .str msg⟩] (systemPrompt cwd)
            (env.model [⟨.user, .str msg⟩]))
          { stats with requestCount := stats.requestCount + 1 }) := by
  rw [runAgent, agentLoop]
  rw [processBlocks_noTool exec _ fs h]
  simp

/-- Witness for C2 at a concrete text-only model oracle. -/
theorem turn_loop_no_tool_terminates_witness :
    runAgent envDone (Tools.executeTool "/w" shell0) "/w" 1 "hi" fs0 statsZ =
      .done [⟨.user, .str "hi"⟩, ⟨.assistant, .blocks [.text "done"]⟩] fs0
        (updateContextUsage
          (calculateTokenUsage envDone [⟨.user, .str "hi"⟩] (systemPrompt "/w")
            (envDone.model [⟨.user, .str "hi"⟩]))
          { statsZ with requestCount := statsZ.requestCount + 1 }) :=
  turn_loop_no_tool_terminates envDone (Tools.executeTool "/w" shell0) "/w" fs0 statsZ "hi" 0
    (by decide)

/-- Claim C8 (code bug): after an agent run issuing one model request (the
first response is text-only, so the loop runs exactly one iteration),
`requestCount` has increased by 2, not by 1: runAgent bumps it before the call
(agent.ts line 49) and updateContextUsage bumps it again per response. -/
theorem session_stats_request_double_count :
    ∃ m f stats', runAgent envDone (Tools.executeTool "/w" shell0) "/w" 1 "hi" fs0 statsZ =
      .done m f stats' ∧ statsZ.requestCount = 0 ∧ stats'.requestCount = 2 :=
  ⟨_, _, _, rfl, rfl, rfl⟩

/-- Claim C3 (amended): for every tool name (known or unknown) and every
argument object — except the bash tool invoked with its command argument
absent, where the spawn argument TypeError rejects the promise — the
modularized executeTool resolves with a text result, and whenever a known
tool is missing one of its required arguments the text begins with the
`Error:` marker. -/
theorem executor_total_amended (cwd : String) (shell : String → SpawnOutcome) (name : String)
    (input : ToolInput) (fs : FS) (h : name = "bash" → input.command ≠ none) :
    isOkE (Tools.executeTool cwd shell name input fs).1 = true ∧
    (missingRequired name input = true →
      hasPrefix (okText (Tools.executeTool cwd shell name input fs).1) "Error:" = true) := by
  obtain ⟨ip, ic, icmd, ipat, irec, ics, ife⟩ := input
  unfold Tools.executeTool missingRequired
  dsimp only
  split_ifs with h1 h2 h3 h4
  · cases ip with
    | none => exact ⟨rfl, fun _ => by dsimp only; decide⟩
    | some q =>
      dsimp only
      cases hr : readFileSync fs (resolvePath cwd q) with
      | ok c => exact ⟨rfl, by simp⟩
      | error e => exact ⟨rfl, by simp⟩
  · cases ic with
    | none => exact ⟨rfl, fun _ => by dsimp only; decide⟩
    | some c =>
      cases ip with
      | none => exact ⟨rfl, fun _ => by dsimp only; decide⟩
      | some q => exact ⟨rfl, by simp⟩
  · cases ip with
    | none => exact ⟨rfl, fun _ => by dsimp only; decide⟩
    | some q =>
      dsimp only
      cases hr : readdirSync fs (resolvePath cwd q) with
      | ok es => exact ⟨rfl, by simp⟩
      | error e => exact ⟨rfl, by simp⟩
  · cases icmd with
    | none => exact absurd rfl (h h4)
    | some cmd =>
      dsimp only
      cases hs : shell cmd with
      | closed code out err => exact ⟨rfl, by simp⟩
      | spawnFailed m => exact ⟨rfl, by simp⟩
  · exact ⟨rfl, by simp⟩

/-- Witness for C3: read_file invoked with no arguments resolves with a text
beginning with the error marker. -/
theorem executor_total_witness :
    isOkE (Tools.executeTool "/w" shell0 "read_file" {} fs0).1 = true ∧
    (missingRequired "read_file" {} = true →
      hasPrefix (okText (Tools.executeTool "/w" shell0 "read_file" {} fs0).1) "Error:" = true) :=
  executor_total_amended "/w" shell0 "read_file" {} fs0 (fun hc => absurd hc (by decide))

/-- Counterexample to C3 as stated: bash invoked with its command argument
absent does not resolve with text — the promise rejects with the spawn
argument TypeError, an exception that propagates to the caller. -/
theorem executor_total_counterexample :
    (Tools.executeTool "/w" shell0 "bash" {} fs0).1 = .error spawnArgErrMsg := rfl

/-- Claim C4: write_file followed by read_file on the same path under the same
working directory returns exactly the written content (round-trip law). -/
theorem write_read_round_trip (cwd : String) (shell : String → SpawnOutcome) (p c : String)
    (fs : FS) :
    (Tools.executeTool cwd shell "read_file" { path := some p }
      (Tools.executeTool cwd shell "write_file" { path := some p, content := some c } fs).2).1 =
    .ok c := by
  simp [Tools.executeTool, readFileSync, FS.readFile?, FS.writeFile, List.find?]

/-- Claim C5 (amended): the modularized write_file with content absent returns
the explicit required-field error — a fixed string distinct from the rendered
filesystem TypeError and flagged with the error marker — and leaves the
filesystem untouched; the single-file variant instead surfaces the caught
filesystem TypeError, also leaving the filesystem untouched; in both variants
with content present the file at the resolved path is created or truncated to
exactly that content and the success message echoes the path written. -/
theorem write_file_content_check (cwd : String) (shell : String → SpawnOutcome) (p c : String)
    (fs : FS) :
    Tools.executeTool cwd shell "write_file" { path := some p } fs = (.ok contentRequiredMsg, fs)
    ∧ SingleFile.executeTool cwd shell "write_file" { path := some p } fs =
        (.ok ("Error: " ++ writeDataErrMsg), fs)
    ∧ contentRequiredMsg ≠ "Error: " ++ writeDataErrMsg
    ∧ hasPrefix contentRequiredMsg "Error:" = true
    ∧ Tools.executeTool cwd shell "write_file" { path := some p, content := some c } fs =
        (.ok ("Written to " ++ p), fs.writeFile (resolvePath cwd p) c)
    ∧ SingleFile.executeTool cwd shell "write_file" { path := some p, content := some c } fs =
        (.ok ("Written to " ++ p), fs.writeFile (resolvePath cwd p) c)
    ∧ (fs.writeFile (resolvePath cwd p) c).readFile? (resolvePath cwd p) = some c := by
  refine ⟨?_, ?_, by decide, by decide, ?_, ?_, ?_⟩
  · simp [Tools.executeTool]
  · simp [SingleFile.executeTool, writeFileSync]
  · simp [Tools.executeTool]
  · simp [SingleFile.executeTool, writeFileSync]
  · simp [FS.readFile?, FS.writeFile, List.find?]

/-- Counterexample to C5 as stated: in the single-file variant (also named as
a source of the claim) write_file with content absent returns the caught
filesystem TypeError, not a required-field error distinct from filesystem
errors. -/
theorem write_file_content_check_counterexample :
    (SingleFile.executeTool "/w" shell0 "write_file" { path := some "f.txt" } fs0).1 =
      .ok ("Error: " ++ writeDataErrMsg)
    ∧ "Error: " ++ writeDataErrMsg ≠ contentRequiredMsg :=
  ⟨rfl, by decide⟩

/-- Claim C6: the bash tool resolves with a result for every close event —
the text reports the exit code, then the collected stdout, then a labeled
Stderr section only when stderr is nonempty; such a result never starts with
the error marker (a nonzero exit is not an error); `exit 0` reports exit code
0 with no Stderr section and `exit 7` reports exit code 7; a spawn failure
resolves with `Error:` text instead of throwing. -/
theorem bash_exit_code_report (cwd : String) (shell : String → SpawnOutcome) (fs : FS)
    (cmd out err m : String) (code : Int) :
    (shell cmd = .closed code out err →
      (Tools.executeTool cwd shell "bash" { command := some cmd } fs).1 =
        .ok ("Exit code: " ++ toString code ++ "\n" ++ out ++
          (if err = "" then "" else "\nStderr: " ++ err)))
    ∧ (∀ s : String, hasPrefix ("Exit code: " ++ s) "Error" = false)
    ∧ (shell "exit 0" = .closed 0 "" "" →
        (Tools.executeTool cwd shell "bash" { command := some "exit 0" } fs).1 =
          .ok "Exit code: 0\n"
        ∧ hasSubstr "Exit code: 0\n" "Stderr" = false)
    ∧ (shell "exit 7" = .closed 7 "" "" →
        (Tools.executeTool cwd shell "bash" { command := some "exit 7" } fs).1 =
          .ok "Exit code: 7\n")
    ∧ (shell cmd = .spawnFailed m →
        (Tools.executeTool cwd shell "bash" { command := some cmd } fs).1 =
          .ok ("Error: " ++ m)) := by
  refine ⟨?_, ?_, ?_, ?_, ?_⟩
  · intro h
    simp [Tools.executeTool, h]
  · intro s
    show ("Error".data.isPrefixOf ("Exit code: ".data ++ s.data)) = false
    simp [List.isPrefixOf]
  · intro h
    simp only [Tools.executeTool]
    rw [h]
    refine ⟨?_, by decide⟩
    simp
    decide
  · intro h
    simp only [Tools.executeTool]
    rw [h]
    simp
    decide
  · intro h
    simp [Tools.executeTool, h]

/-- Witness for C6 at the concrete shell oracle. -/
theorem bash_exit_code_report_witness :
    (Tools.executeTool "/w" shell0 "bash" { command := some "exit 0" } fs0).1 =
      .ok "Exit code: 0\n"
    ∧ hasSubstr "Exit code: 0\n" "Stderr" = false
    ∧ (Tools.executeTool "/w" shell0 "bash" { command := some "exit 7" } fs0).1 =
      .ok "Exit code: 7\n" := by
  have h := bash_exit_code_report "/w" shell0 fs0 "x" "" "" "m" 0
  exact ⟨(h.2.2.1 rfl).1, (h.2.2.1 rfl).2, h.2.2.2.1 rfl⟩

/-- Claim C9 (amended): the single-file and modularized executeTool return
identical results for every tool name and argument object, except write_file
invoked with its content argument absent (there the modularized variant
returns its explicit required-field error while the single-file variant
returns the caught filesystem TypeError). -/
theorem variant_equivalence (cwd : String) (shell : String → SpawnOutcome) (name : String)
    (input : ToolInput) (fs : FS) (h : name = "write_file" → input.content.isSome = true) :
    Tools.executeTool cwd shell name input fs = SingleFile.executeTool cwd shell name input fs := by
  obtain ⟨ip, ic, icmd, ipat, irec, ics, ife⟩ := input
  unfold Tools.executeTool SingleFile.executeTool
  dsimp only
  split_ifs with h1 h2 h3 h4
  · rfl
  · have hc := h h2
    cases ic with
    | none => simp at hc
    | some c =>
      cases ip with
      | none => rfl
      | some q => simp [writeFileSync]
  · rfl
  · rfl
  · rfl

/-- Witness for C9: both variants agree on a concrete read_file invocation. -/
theorem variant_equivalence_witness :
    Tools.executeTool "/w" shell0 "read_file" { path := some "f" } fs0 =
      SingleFile.executeTool "/w" shell0 "read_file" { path := some "f" } fs0 :=
  variant_equivalence "/w" shell0 "read_file" { path := some "f" } fs0
    (fun hc => absurd hc (by decide))

/-- Counterexample to C9 as stated: write_file with content absent yields
different result texts in the two variants. -/
theorem variant_equivalence_counterexample :
    (Tools.executeTool "/w" shell0 "write_file" { path := some "f" } fs0).1 =
      .ok contentRequiredMsg
    ∧ (SingleFile.executeTool "/w" shell0 "write_file" { path := some "f" } fs0).1 =
      .ok ("Error: " ++ writeDataErrMsg)
    ∧ contentRequiredMsg ≠ "Error: " ++ writeDataErrMsg :=
  ⟨rfl, rfl, by decide⟩

/-- Claim C10: both variants answer any tool name outside the compiled-in set
with `Unknown tool: <name>` — resolving, not throwing — and that text does not
begin with the `Error:` marker used for other failures. -/
theorem unknown_tool_text (cwd : String) (shell : String → SpawnOutcome) (name : String)
    (input : ToolInput) (fs : FS) (h : ¬ name ∈ knownTools) :
    Tools.executeTool cwd shell name input fs = (.ok ("Unknown tool: " ++ name), fs)
    ∧ SingleFile.executeTool cwd shell name input fs = (.ok ("Unknown tool: " ++ name), fs)
    ∧ hasPrefix ("Unknown tool: " ++ name) "Error:" = false := by
  simp only [knownTools, List.mem_cons, List.mem_singleton, not_or] at h
  obtain ⟨hn1, hn2, hn3, hn4⟩ := h
  refine ⟨?_, ?_, ?_⟩
  · simp [Tools.executeTool, hn1, hn2, hn3, hn4]
  · simp [SingleFile.executeTool, hn1, hn2, hn3, hn4]
  · show ("Error:".data.isPrefixOf ("Unknown tool: ".data ++ name.data)) = false
    simp [List.isPrefixOf]

/-- Witness for C10 at a concrete unknown tool name. -/
theorem unknown_tool_text_witness :
    Tools.executeTool "/w" shell0 "frobnicate" {} fs0 = (.ok "Unknown tool: frobnicate", fs0)
    ∧ SingleFile.executeTool "/w" shell0 "frobnicate" {} fs0 =
      (.ok "Unknown tool: frobnicate", fs0)
    ∧ hasPrefix "Unknown tool: frobnicate" "Error:" = false := by
  have h := unknown_tool_text "/w" shell0 "frobnicate" {} fs0 (by decide)
  exact ⟨h.1, h.2.1, h.2.2⟩

theorem searchInFile_eval (rx : JsRegex) (b3 : Bool) (ha : rx.test "alpha" = false)
    (hb : rx.test "beta" = false) (hc : rx.test "foobar" = b3) :
    Grep.searchInFile rx [] "/w" grepFS "/w/d/a.txt" =
      if b3 then [colorize.file "d/a.txt" ++ ":" ++ colorize.info "3" ++ ":" ++ rx.repl "foobar"]
      else [] := by
  unfold Grep.searchInFile
  have h1 : grepFS.isFile "/w/d/a.txt" = true := by decide
  have h2 : grepFS.readFile? "/w/d/a.txt" = some "alpha\nbeta\nfoobar" := by decide
  have h3 : jsSplitLines "alpha\nbeta\nfoobar" = ["alpha", "beta", "foobar"] := by decide
  have h4 : relativeTo "/w" "/w/d/a.txt" = "d/a.txt" := by decide
  have h5 : toString (3 : Nat) = "3" := by decide
  have ea : List.asString ['a', 'l', 'p', 'h', 'a'] = "alpha" := rfl
  have eb : List.asString ['b', 'e', 't', 'a'] = "beta" := rfl
  have ec : List.asString ['f', 'o', 'o', 'b', 'a', 'r'] = "foobar" := rfl
  rw [h1, h2]
  cases b3 with
  | true => simp [List.enum, List.enumFrom, ea, eb, ec, ha, hb, hc, h3, h4, h5]
  | false => simp [List.enum, List.enumFrom, ea, eb, ec, ha, hb, hc, h3]

theorem searchDirectory_eval (rx : JsRegex) :
    Grep.searchDirectory rx [] "/w" grepFS true 1 "/w/d" =
      Grep.searchInFile rx [] "/w" grepFS "/w/d/a.txt" := by
  unfold Grep.searchDirectory
  have h1 : grepFS.readdir? "/w/d" = some [⟨"a.txt", false⟩] := by decide
  have h2 : joinPath "/w/d" "a.txt" = "/w/d/a.txt" := by decide
  rw [h1]
  simp [h2]

/-- Claim C7: over the concrete directory d whose one file a.txt contains
"foobar" on line 3, grep_search for the literal pattern "foo" (whose compiled
regex matches exactly the lines containing "foo" as a substring) returns the
match-count summary followed by one emitted line of the form
`path:line_number:line_with_match` citing d/a.txt at line 3; grep_search for a
pattern matching nothing returns the explicit no-matches message, which is not
the empty string; and in general every line emitted by the per-file search has
the form `path:line_number:highlighted_line` for some line of the file matched
by the regex, with line numbers starting at 1. -/
theorem grep_output_format (compile : Option String → Bool → Except String JsRegex)
    (rxF rxZ : JsRegex)
    (hF : compile (some "foo") false = .ok rxF)
    (hFa : rxF.test "alpha" = false) (hFb : rxF.test "beta" = false)
    (hFc : rxF.test "foobar" = true)
    (hZ : compile (some "zzz") false = .ok rxZ)
    (hZa : rxZ.test "alpha" = false) (hZb : rxZ.test "beta" = false)
    (hZc : rxZ.test "foobar" = false) :
    Grep.grepSearch compile "/w" grepFS { path := some "d", pattern := some "foo" } 1 =
      colorize.success "Found 1 matches for pattern: foo" ++ "\n\n" ++
        (colorize.file "d/a.txt" ++ ":" ++ colorize.info "3" ++ ":" ++ rxF.repl "foobar")
    ∧ Grep.grepSearch compile "/w" grepFS { path := some "d", pattern := some "zzz" } 1 =
        colorize.warning "No matches found for pattern: zzz"
    ∧ colorize.warning "No matches found for pattern: zzz" ≠ ""
    ∧ (∀ (rx : JsRegex) (exts : List String) (cwd fp content r : String) (fs : FS),
        fs.readFile? fp = some content →
        r ∈ Grep.searchInFile rx exts cwd fs fp →
        ∃ i line, (jsSplitLines content)[i]? = some line ∧ rx.test line = true ∧
          r = colorize.file (relativeTo cwd fp) ++ ":" ++ colorize.info (toString (i + 1)) ++
            ":" ++ rx.repl line) := by
  refine ⟨?_, ?_, by decide, ?_⟩
  · unfold Grep.grepSearch
    dsimp only
    simp only [Option.getD_none]
    rw [hF]
    have ht : resolvePath "/w" "d" = "/w/d" := by decide
    have h1 : grepFS.isFile "/w/d" = false := by decide
    have h2 : grepFS.isDirPath "/w/d" = true := by decide
    rw [ht, h1, h2]
    dsimp only
    rw [searchDirectory_eval rxF, searchInFile_eval rxF true hFa hFb hFc]
    have hA : "Found " ++ toString ((1 : Nat)) ++ " matches for pattern: " ++ jsOptStr (some "foo") =
        "Found 1 matches for pattern: foo" := by decide
    simp [joinWith, hA]
  · unfold Grep.grepSearch
    dsimp only
    simp only [Option.getD_none]
    rw [hZ]
    have ht : resolvePath "/w" "d" = "/w/d" := by decide
    have h1 : grepFS.isFile "/w/d" = false := by decide
    have h2 : grepFS.isDirPath "/w/d" = true := by decide
    rw [ht, h1, h2]
    dsimp only
    rw [searchDirectory_eval rxZ, searchInFile_eval rxZ false hZa hZb hZc]
    have hB : "No matches found for pattern: " ++ jsOptStr (some "zzz") =
        "No matches found for pattern: zzz" := by decide
    simp [hB]
  · intro rx exts cwd fp content r fs hread hr
    unfold Grep.searchInFile at hr
    have hfile : fs.isFile fp = true := by
      unfold FS.isFile
      unfold FS.readFile? at hread
      cases hf : fs.files.find? (fun e => e.1 == fp) with
      | none => rw [hf] at hread; simp at hread
      | some v =>
        have hm := List.mem_of_find?_eq_some hf
        have hp := List.find?_some hf
        rw [List.any_eq_true]
        exact ⟨v, hm, hp⟩
    rw [hfile] at hr
    simp only [if_true] at hr
    split at hr
    · simp at hr
    · rw [hread] at hr
      rcases List.mem_filterMap.mp hr with ⟨il, hmem, hfm⟩
      split at hfm
      · rename_i htest
        refine ⟨il.1, il.2, ?_, htest, ?_⟩
        · exact List.mem_enum_iff_getElem?.mp hmem
        · exact (Option.some.injEq _ _ ▸ hfm).symm
      · exact absurd hfm (by simp)

/-- Witness for C7 at the concrete regex-compiler oracle: the literal
substring matchers for "foo" and "zzz". -/
theorem grep_output_format_witness :
    Grep.grepSearch compile0 "/w" grepFS { path := some "d", pattern := some "foo" } 1 =
      colorize.success "Found 1 matches for pattern: foo" ++ "\n\n" ++
        (colorize.file "d/a.txt" ++ ":" ++ colorize.info "3" ++ ":" ++ fooRx.repl "foobar")
    ∧ Grep.grepSearch compile0 "/w" grepFS { path := some "d", pattern := some "zzz" } 1 =
        colorize.warning "No matches found for pattern: zzz"
    ∧ colorize.warning "No matches found for pattern: zzz" ≠ "" := by
  have h := grep_output_format compile0 fooRx zzzRx (by rfl) (by decide) (by decide)
    (by decide) (by rfl) (by decide) (by decide) (by decide)
  exact ⟨h.1, h.2.1, h.2.2.1⟩

end CodingAgent
